import Mathlib

/-!
Shallow embedding of the posture-checker core (src/main.py).

The per-frame state machine (`process_landmarks`, `handle_no_detection`,
`manage_sound_loop`) is embedded over exact rationals: the two joint angles
`sit` and `std` computed at the top of `process_landmarks` (lines 152-169 of
main.py) are taken as inputs of the step function, exactly as the rest of the
function consumes them; timestamps (`time.time()` values) are rationals.
Python's truthiness test on the optional timestamps (`if state['stand_up_time']
and ...`) is modelled by `truthy`. The geometric layer (`calculate_angle`,
using `math.atan2`/`math.degrees`) is embedded over the reals at the end of
the file; `choose_side` is pure arithmetic and comparisons and is embedded
over the rationals.
-/

namespace PostureChecker

/-- POSTURE_THRESHOLD = 130 (main.py line 35). -/
def POSTURE_THRESHOLD : ℚ := 130

/-- STAND_THRESHOLD = 170 (main.py line 36). -/
def STAND_THRESHOLD : ℚ := 170

/-- MAX_COUNTER = 3 (main.py line 37). -/
def MAX_COUNTER : ℕ := 3

/-- DETECTION_COOLDOWN = 5.0 (main.py line 38). -/
def DETECTION_COOLDOWN : ℚ := 5

/-- VIS_THRESH = 0.5 (main.py line 39). -/
def VIS_THRESH : ℚ := 1/2

/-- SIT_LIMIT_SEC = 3600 (main.py line 40). -/
def SIT_LIMIT_SEC : ℚ := 3600

/-- Which body side `choose_side` picks. -/
inductive Side where
  | left
  | right
deriving DecidableEq, Repr

/-- One MediaPipe landmark: position and visibility (spec section 3). -/
structure Landmark where
  x : ℚ
  y : ℚ
  z : ℚ
  visibility : ℚ
deriving DecidableEq, Repr

/-- choose_side (main.py lines 71-84), applied to the five landmarks it reads
from the snapshot (nose, left/right shoulder, left/right hip). -/
def choose_side (nose Ls Rs Lh Rh : Landmark) (v : ℚ) : Side :=
  let vis_left := Ls.visibility + Lh.visibility
  let vis_right := Rs.visibility + Rh.visibility
  if vis_left ≥ v * 2 ∧ vis_left > vis_right then Side.left
  else if vis_right ≥ v * 2 ∧ vis_right > vis_left then Side.right
  else if Ls.z < Rs.z then Side.left
  else if Rs.z < Ls.z then Side.right
  else
    let dL := (nose.x - Ls.x) ^ 2 + (nose.y - Ls.y) ^ 2
    let dR := (nose.x - Rs.x) ^ 2 + (nose.y - Rs.y) ^ 2
    if dL < dR then Side.left else Side.right

/-- The discrete events one frame can emit: sound cues (playsound calls) and
display texts (draw_text / print calls), in program order. -/
inductive Event where
  /-- playsound reset.wav, the STAND_UP cue (main.py line 183). -/
  | standUpCue
  /-- playsound siren_short.wav, the BAD_POSTURE_SHORT cue (line 196). -/
  | sirenShortCue
  /-- draw_text Posture Check Paused (line 189). -/
  | displayPaused
  /-- draw_text Bad Posture with the current count (line 198). -/
  | displayBadPosture (count : ℕ)
  /-- draw_text Standing (line 202). -/
  | displayStanding
  /-- draw_text Good Posture with the current count (line 204). -/
  | displayGoodPosture (count : ℕ)
  /-- printed stretch reminder (line 210). -/
  | stretchNotice
  /-- draw_text Stretch Time (line 212). -/
  | displayStretchTime
  /-- printed bad-posture alert notice (line 217). -/
  | alertNotice
  /-- draw_text PLEASE STRETCH (line 218). -/
  | displayPleaseStretch
  /-- draw_text of the two measured angles (lines 225-226). -/
  | displayAngleInfo (sit std : ℚ)
  /-- draw_text No detection (line 234). -/
  | displayNoDetection
deriving DecidableEq, Repr

/-- The mutable session state dictionary (main.py lines 255-265), without the
thread handle: `ping_thread` carries no information beyond `ping_active` for
the per-frame transition. -/
structure State where
  badPostureCount : ℕ
  consecutiveBadPosture : ℕ
  lastDetectionTime : ℚ
  sittingStartTime : Option ℚ
  stretchPrompted : Bool
  prevIsStanding : Bool
  standUpTime : Option ℚ
  pingActive : Bool
deriving DecidableEq, Repr

/-- The initial state (main.py lines 255-265). -/
def initial_state : State :=
  { badPostureCount := 0
    consecutiveBadPosture := 0
    lastDetectionTime := 0
    sittingStartTime := none
    stretchPrompted := false
    prevIsStanding := false
    standUpTime := none
    pingActive := false }

/-- Python truthiness of an optional timestamp: None and 0.0 are falsy. -/
def truthy : Option ℚ → Bool
  | none => false
  | some t => decide (t ≠ 0)

/-- manage_sound_loop (main.py lines 135-146), reduced to the `ping_active`
flag it controls. -/
def manage_sound_loop (ping_active should_be_active : Bool) : Bool :=
  if should_be_active && !ping_active then true
  else if !should_be_active && ping_active then false
  else ping_active

/-- The in-function normalization of the knee-hip-shoulder angle
(main.py lines 168-169). -/
def fold_std (stdRaw : ℚ) : ℚ :=
  if stdRaw > 180 then 360 - stdRaw else stdRaw

/-- is_stand = std >= STAND_THRESHOLD (main.py line 172). -/
def is_standing_frame (std : ℚ) : Bool :=
  decide (STAND_THRESHOLD ≤ std)

/-- is_sit = sit != 0 and not is_stand (main.py line 173). -/
def is_sitting_frame (sit std : ℚ) : Bool :=
  decide (sit ≠ 0) && !(is_standing_frame std)

/-- The sit < POSTURE_THRESHOLD and sit != 0 test guarding the bad-posture
branch (main.py line 191). -/
def bad_angle_frame (sit : ℚ) : Bool :=
  decide (sit < POSTURE_THRESHOLD) && decide (sit ≠ 0)

/-- The value of `stand_up_time` after the stand-up edge block
(main.py lines 182-185) has run. -/
def stand_up_time_after_edge (st : State) (is_stand : Bool) (now : ℚ) : Option ℚ :=
  if is_stand && !st.prevIsStanding then some now else st.standUpTime

/-- The suppression test of main.py line 188:
`state['stand_up_time'] and now - state['stand_up_time'] < 10`. -/
def suppression_active (sut : Option ℚ) (now : ℚ) : Bool :=
  truthy sut && decide (now - sut.getD 0 < 10)

/-- The sitting-timer block (main.py lines 176-179). -/
def sitting_timer_update (is_sit is_stand : Bool) (now : ℚ) (st : State) : State :=
  let st1 :=
    if is_sit && decide (st.sittingStartTime = none) then
      { st with sittingStartTime := some now, stretchPrompted := false }
    else st
  if is_stand then
    { st1 with sittingStartTime := none, stretchPrompted := false }
  else st1

/-- The stand-up edge block (main.py lines 182-185). -/
def stand_up_edge_update (is_stand : Bool) (now : ℚ) (prev : Bool) (st : State) :
    State × List Event :=
  if is_stand && !prev then
    ({ st with standUpTime := some now, badPostureCount := 0 }, [Event.standUpCue])
  else (st, [])

/-- The posture-check block (main.py lines 188-204). -/
def posture_check (sit now : ℚ) (is_stand : Bool) (st : State) : State × List Event :=
  if suppression_active st.standUpTime now then
    (st, [Event.displayPaused])
  else
    if bad_angle_frame sit then
      let c := st.consecutiveBadPosture + 1
      if decide (MAX_COUNTER ≤ c) && decide (DETECTION_COOLDOWN ≤ now - st.lastDetectionTime) then
        let stf : State :=
          { st with badPostureCount := st.badPostureCount + 1
                    lastDetectionTime := now
                    consecutiveBadPosture := 0 }
        (stf, [Event.sirenShortCue, Event.displayBadPosture stf.badPostureCount])
      else
        let stf : State := { st with consecutiveBadPosture := c }
        (stf, [Event.displayBadPosture stf.badPostureCount])
    else
      let stf : State := { st with consecutiveBadPosture := 0 }
      (stf,
        [if is_stand then Event.displayStanding
         else Event.displayGoodPosture stf.badPostureCount])

/-- The stretch-time check (main.py lines 207-212); the Bool is
`is_stretch_time`, reused by the sound-loop control. -/
def stretch_check (is_sit : Bool) (now : ℚ) (st : State) : State × List Event × Bool :=
  let is_stretch := is_sit && truthy st.sittingStartTime &&
      decide (SIT_LIMIT_SEC ≤ now - st.sittingStartTime.getD 0)
  if is_stretch then
    if !st.stretchPrompted then
      ({ st with stretchPrompted := true },
        [Event.stretchNotice, Event.displayStretchTime], true)
    else (st, [Event.displayStretchTime], true)
  else (st, [], false)

/-- The bad-posture-exceeded block (main.py lines 214-218); the Bool is
`is_bad_posture_exceeded`. -/
def exceeded_check (st : State) : List Event × Bool :=
  if decide (MAX_COUNTER ≤ st.badPostureCount) then
    (if !st.pingActive then [Event.alertNotice, Event.displayPleaseStretch]
     else [Event.displayPleaseStretch], true)
  else ([], false)

/-- The tail of process_landmarks after the posture check: stretch-time check,
exceeded check, sound-loop control, angle display and `prev_is_standing`
update (main.py lines 207-229). -/
def finish_frame (is_sit is_stand : Bool) (sit std now : ℚ) (stEv : State × List Event) :
    State × List Event :=
  let st4 := stEv.1
  let sc := stretch_check is_sit now st4
  let st5 := sc.1
  let ec := exceeded_check st5
  let should_ping := sc.2.2 || ec.2
  let st6 := { st5 with pingActive := manage_sound_loop st5.pingActive should_ping }
  let st7 := { st6 with prevIsStanding := is_stand }
  (st7, stEv.2 ++ sc.2.1 ++ ec.1 ++ [Event.displayAngleInfo sit std])

/-- process_landmarks (main.py lines 148-230), given the two angles computed
at its top (`sit` from get_angle, `stdRaw` from get_angle before the
line-168 fold) and the frame time `now`. -/
def process_landmarks (sit stdRaw now : ℚ) (st : State) : State × List Event :=
  let std := fold_std stdRaw
  let is_stand := is_standing_frame std
  let is_sit := is_sitting_frame sit std
  let st2 := sitting_timer_update is_sit is_stand now st
  let edge := stand_up_edge_update is_stand now st.prevIsStanding st2
  let pc := posture_check sit now is_stand edge.1
  finish_frame is_sit is_stand sit std now (pc.1, edge.2 ++ pc.2)

/-- handle_no_detection (main.py lines 232-242). -/
def handle_no_detection (st : State) : State × List Event :=
  let st1 : State :=
    { st with sittingStartTime := none
              stretchPrompted := false
              consecutiveBadPosture := 0
              prevIsStanding := false }
  let st2 := { st1 with pingActive := manage_sound_loop st1.pingActive false }
  (st2, [Event.displayNoDetection])

/-! ### Geometry layer: calculate_angle over the reals -/

open Classical in
/-- Python math.atan2(y, x): the polar angle of the point (x, y), in
(-pi, pi]. Signed floating-point zeros are not modelled. -/
noncomputable def atan2 (y x : ℝ) : ℝ :=
  if 0 < x then Real.arctan (y / x)
  else if x < 0 ∧ 0 ≤ y then Real.arctan (y / x) + Real.pi
  else if x < 0 ∧ y < 0 then Real.arctan (y / x) - Real.pi
  else if x = 0 ∧ 0 < y then Real.pi / 2
  else if x = 0 ∧ y < 0 then -(Real.pi / 2)
  else 0

/-- Python math.degrees. -/
noncomputable def degrees (x : ℝ) : ℝ := x * (180 / Real.pi)

open Classical in
/-- calculate_angle (main.py lines 53-59): degrees of the difference of the
two polar angles, then `abs(ang if ang < 180 else 360 - ang)`. -/
noncomputable def calculate_angle (a b c : ℝ × ℝ) : ℝ :=
  let ang := degrees (atan2 (c.2 - b.2) (c.1 - b.1) - atan2 (a.2 - b.2) (a.1 - b.1))
  |if ang < 180 then ang else 360 - ang|

/-! ### Concrete inputs used by witnesses and counterexamples -/

/-- A state that is already standing, ten-plus seconds after the last
stand-up edge at t = 1. -/
def standing_state : State :=
  { initial_state with prevIsStanding := true, standUpTime := some 1 }

/-- A state sitting since t = 50. -/
def sitting_state : State :=
  { initial_state with sittingStartTime := some 50 }

/-- A state with three debounced detections and the alarm loop running. -/
def alert_state : State :=
  { initial_state with badPostureCount := 3, pingActive := true }

/-- A state with three debounced detections, alarm loop not yet running. -/
def alert3_state : State :=
  { initial_state with badPostureCount := 3 }

/-- Concrete landmarks: the left side has combined shoulder+hip visibility
exactly 2 x VIS_THRESH (not strictly above it) and larger visibility than the
right, while the right shoulder is nearer in depth. -/
def nose_lm : Landmark := ⟨0, 0, 0, 1⟩

def left_shoulder_lm : Landmark := ⟨0, 0, 5, 1/2⟩

def right_shoulder_lm : Landmark := ⟨0, 0, 1, 1/4⟩

def left_hip_lm : Landmark := ⟨0, 0, 0, 1/2⟩

def right_hip_lm : Landmark := ⟨0, 0, 0, 1/4⟩

/-- A session state two seconds after a stand-up edge at t = 1, with two
debounced detections on record: used as a concrete frame input. -/
def window_state : State :=
  { initial_state with
      standUpTime := some 1
      badPostureCount := 2 }

/-- Like `window_state` but already standing on the previous frame: used as a
concrete frame input. -/
def window_state_standing : State :=
  { window_state with prevIsStanding := true }

/-! ### Helper lemmas about the frame stages -/

/-- The sitting-timer block touches only `sittingStartTime` and
`stretchPrompted`. -/
theorem sitting_timer_update_fields (a b : Bool) (now : ℚ) (st : State) :
    (sitting_timer_update a b now st).badPostureCount = st.badPostureCount ∧
    (sitting_timer_update a b now st).consecutiveBadPosture = st.consecutiveBadPosture ∧
    (sitting_timer_update a b now st).lastDetectionTime = st.lastDetectionTime ∧
    (sitting_timer_update a b now st).standUpTime = st.standUpTime ∧
    (sitting_timer_update a b now st).prevIsStanding = st.prevIsStanding ∧
    (sitting_timer_update a b now st).pingActive = st.pingActive := by
  unfold sitting_timer_update
  split <;> split <;> simp

/-- The tail of the frame preserves the bad-posture bookkeeping fields and the
timers and sets `prevIsStanding`. -/
theorem finish_frame_state_fields (a b : Bool) (sit std now : ℚ) (p : State × List Event) :
    (finish_frame a b sit std now p).1.badPostureCount = p.1.badPostureCount ∧
    (finish_frame a b sit std now p).1.consecutiveBadPosture = p.1.consecutiveBadPosture ∧
    (finish_frame a b sit std now p).1.lastDetectionTime = p.1.lastDetectionTime ∧
    (finish_frame a b sit std now p).1.standUpTime = p.1.standUpTime ∧
    (finish_frame a b sit std now p).1.sittingStartTime = p.1.sittingStartTime ∧
    (finish_frame a b sit std now p).1.prevIsStanding = b := by
  unfold finish_frame stretch_check exceeded_check
  dsimp only
  split_ifs <;> simp

theorem finish_frame_badCount (a b : Bool) (sit std now : ℚ) (p : State × List Event) :
    (finish_frame a b sit std now p).1.badPostureCount = p.1.badPostureCount :=
  (finish_frame_state_fields a b sit std now p).1

theorem finish_frame_consecutive (a b : Bool) (sit std now : ℚ) (p : State × List Event) :
    (finish_frame a b sit std now p).1.consecutiveBadPosture = p.1.consecutiveBadPosture :=
  (finish_frame_state_fields a b sit std now p).2.1

theorem finish_frame_lastDetection (a b : Bool) (sit std now : ℚ) (p : State × List Event) :
    (finish_frame a b sit std now p).1.lastDetectionTime = p.1.lastDetectionTime :=
  (finish_frame_state_fields a b sit std now p).2.2.1

theorem finish_frame_standUpTime (a b : Bool) (sit std now : ℚ) (p : State × List Event) :
    (finish_frame a b sit std now p).1.standUpTime = p.1.standUpTime :=
  (finish_frame_state_fields a b sit std now p).2.2.2.1

theorem finish_frame_sittingStart (a b : Bool) (sit std now : ℚ) (p : State × List Event) :
    (finish_frame a b sit std now p).1.sittingStartTime = p.1.sittingStartTime :=
  (finish_frame_state_fields a b sit std now p).2.2.2.2.1

theorem finish_frame_prev (a b : Bool) (sit std now : ℚ) (p : State × List Event) :
    (finish_frame a b sit std now p).1.prevIsStanding = b :=
  (finish_frame_state_fields a b sit std now p).2.2.2.2.2

/-- The tail of the frame appends no sound cue and no paused display. -/
theorem finish_frame_event_facts (a b : Bool) (sit std now : ℚ) (p : State × List Event) :
    (finish_frame a b sit std now p).2.count Event.sirenShortCue
      = p.2.count Event.sirenShortCue ∧
    (finish_frame a b sit std now p).2.count Event.standUpCue
      = p.2.count Event.standUpCue ∧
    (Event.displayPaused ∈ (finish_frame a b sit std now p).2
      ↔ Event.displayPaused ∈ p.2) := by
  unfold finish_frame stretch_check exceeded_check
  dsimp only
  split_ifs <;> simp [List.count_append]

theorem finish_frame_count_siren (a b : Bool) (sit std now : ℚ) (p : State × List Event) :
    (finish_frame a b sit std now p).2.count Event.sirenShortCue
      = p.2.count Event.sirenShortCue :=
  (finish_frame_event_facts a b sit std now p).1

theorem finish_frame_count_standUp (a b : Bool) (sit std now : ℚ) (p : State × List Event) :
    (finish_frame a b sit std now p).2.count Event.standUpCue
      = p.2.count Event.standUpCue :=
  (finish_frame_event_facts a b sit std now p).2.1

theorem finish_frame_mem_paused (a b : Bool) (sit std now : ℚ) (p : State × List Event) :
    Event.displayPaused ∈ (finish_frame a b sit std now p).2
      ↔ Event.displayPaused ∈ p.2 :=
  (finish_frame_event_facts a b sit std now p).2.2

/-- With a positive frame time, a frame on which the suppression test fails
cannot have been a stand-up edge: the edge would have just set
`stand_up_time = now`, making the window active. -/
theorem no_edge_of_not_suppressed (st : State) (is_stand : Bool) (now : ℚ)
    (hnow : 0 < now)
    (hsup : suppression_active (stand_up_time_after_edge st is_stand now) now = false) :
    (is_stand && !st.prevIsStanding) = false := by
  by_contra hc
  rw [Bool.not_eq_false] at hc
  rw [stand_up_time_after_edge, if_pos hc] at hsup
  have ht : suppression_active (some now) now = true := by
    simp only [suppression_active, truthy, Option.getD_some, sub_self, Bool.and_eq_true,
      decide_eq_true_eq]
    exact ⟨hnow.ne', by norm_num⟩
  rw [ht] at hsup
  exact absurd hsup (by simp)

/-- When the suppression window is inactive and the frame's sit angle is bad,
the posture-check block is the debounce step (main.py lines 191-198). -/
theorem posture_check_bad (sit now : ℚ) (b : Bool) (st : State)
    (hsup : suppression_active st.standUpTime now = false)
    (h0 : sit ≠ 0) (h130 : sit < POSTURE_THRESHOLD) :
    posture_check sit now b st =
      if MAX_COUNTER ≤ st.consecutiveBadPosture + 1 ∧
          DETECTION_COOLDOWN ≤ now - st.lastDetectionTime then
        ({ st with badPostureCount := st.badPostureCount + 1
                   lastDetectionTime := now
                   consecutiveBadPosture := 0 },
          [Event.sirenShortCue, Event.displayBadPosture (st.badPostureCount + 1)])
      else
        ({ st with consecutiveBadPosture := st.consecutiveBadPosture + 1 },
          [Event.displayBadPosture st.badPostureCount]) := by
  have hb : bad_angle_frame sit = true := by
    simp only [bad_angle_frame, Bool.and_eq_true, decide_eq_true_eq]
    exact ⟨h130, h0⟩
  unfold posture_check
  rw [hsup]
  rw [if_neg (by simp)]
  rw [hb, if_pos rfl]
  dsimp only
  by_cases h : MAX_COUNTER ≤ st.consecutiveBadPosture + 1 ∧
      DETECTION_COOLDOWN ≤ now - st.lastDetectionTime
  · rw [if_pos h]
    have hcond : (decide (MAX_COUNTER ≤ st.consecutiveBadPosture + 1) &&
        decide (DETECTION_COOLDOWN ≤ now - st.lastDetectionTime)) = true := by
      simp [h.1, h.2]
    rw [hcond, if_pos rfl]
  · rw [if_neg h]
    have hcond : (decide (MAX_COUNTER ≤ st.consecutiveBadPosture + 1) &&
        decide (DETECTION_COOLDOWN ≤ now - st.lastDetectionTime)) = false := by
      rcases not_and_or.mp h with h1 | h1 <;> simp [h1]
    rw [hcond]
    simp

/-- When the suppression window is inactive and the sit angle is not bad, the
posture-check block just resets the consecutive counter and draws a status
(main.py lines 199-204). -/
theorem posture_check_good (sit now : ℚ) (b : Bool) (st : State)
    (hsup : suppression_active st.standUpTime now = false)
    (hgood : sit = 0 ∨ POSTURE_THRESHOLD ≤ sit) :
    posture_check sit now b st =
      ({ st with consecutiveBadPosture := 0 },
        [if b then Event.displayStanding else Event.displayGoodPosture st.badPostureCount]) := by
  have hb : bad_angle_frame sit = false := by
    rcases hgood with h | h
    · simp [bad_angle_frame, h]
    · have hlt : ¬ sit < POSTURE_THRESHOLD := not_lt.mpr h
      simp [bad_angle_frame, hlt]
  unfold posture_check
  rw [hsup]
  rw [if_neg (by simp)]
  rw [hb]
  simp

/-- When the suppression window is active, the posture-check block does nothing
but draw the paused text (main.py lines 188-189). -/
theorem posture_check_suppressed (sit now : ℚ) (b : Bool) (st : State)
    (hsup : suppression_active st.standUpTime now = true) :
    posture_check sit now b st = (st, [Event.displayPaused]) := by
  unfold posture_check
  rw [if_pos hsup]

/-- Decomposition of a frame with no stand-up edge: the edge block is a no-op
and the frame is timer-update, posture-check, then the tail. -/
theorem process_landmarks_no_edge (sit stdRaw now : ℚ) (st : State)
    (hedge : (is_standing_frame (fold_std stdRaw) && !st.prevIsStanding) = false) :
    process_landmarks sit stdRaw now st
      = finish_frame (is_sitting_frame sit (fold_std stdRaw))
          (is_standing_frame (fold_std stdRaw)) sit (fold_std stdRaw) now
          (posture_check sit now (is_standing_frame (fold_std stdRaw))
            (sitting_timer_update (is_sitting_frame sit (fold_std stdRaw))
              (is_standing_frame (fold_std stdRaw)) now st)) := by
  unfold process_landmarks
  dsimp only
  rw [stand_up_edge_update, hedge]
  simp

/-- The posture-check block never touches the timers, the prompts or the loop
flag; it can only keep or increment badPostureCount, and it emits no stand-up
cue. -/
theorem posture_check_fields (sit now : ℚ) (b : Bool) (st : State) :
    (posture_check sit now b st).1.standUpTime = st.standUpTime ∧
    (posture_check sit now b st).1.sittingStartTime = st.sittingStartTime ∧
    (posture_check sit now b st).1.stretchPrompted = st.stretchPrompted ∧
    (posture_check sit now b st).1.prevIsStanding = st.prevIsStanding ∧
    (posture_check sit now b st).1.pingActive = st.pingActive ∧
    ((posture_check sit now b st).1.badPostureCount = st.badPostureCount ∨
      (posture_check sit now b st).1.badPostureCount = st.badPostureCount + 1) ∧
    (posture_check sit now b st).2.count Event.standUpCue = 0 := by
  unfold posture_check
  dsimp only
  cases b <;> split_ifs <;> simp [List.count_cons]

/-- When the suppression window is inactive, the posture check draws no paused
text. -/
theorem posture_check_no_paused (sit now : ℚ) (b : Bool) (st : State)
    (hsup : suppression_active st.standUpTime now = false) :
    Event.displayPaused ∉ (posture_check sit now b st).2 := by
  unfold posture_check
  rw [hsup, if_neg (by simp)]
  dsimp only
  cases b <;> split_ifs <;> simp

/-- Decomposition of a stand-up-edge frame at a positive wall-clock time: the
edge block fires, and the fresh `stand_up_time = now` makes the suppression
window active, so the posture check is paused. -/
theorem process_landmarks_edge (sit stdRaw now : ℚ) (st : State)
    (hstand : is_standing_frame (fold_std stdRaw) = true)
    (hprev : st.prevIsStanding = false) (hnow : 0 < now) :
    process_landmarks sit stdRaw now st
      = finish_frame (is_sitting_frame sit (fold_std stdRaw))
          (is_standing_frame (fold_std stdRaw)) sit (fold_std stdRaw) now
          ({ sitting_timer_update (is_sitting_frame sit (fold_std stdRaw))
              (is_standing_frame (fold_std stdRaw)) now st with
                standUpTime := some now
                badPostureCount := 0 },
            [Event.standUpCue, Event.displayPaused]) := by
  unfold process_landmarks
  dsimp only
  rw [stand_up_edge_update, hprev, hstand]
  rw [if_pos (by simp)]
  dsimp only
  rw [posture_check_suppressed]
  · simp
  · simp only [suppression_active, truthy, Option.getD_some, sub_self, Bool.and_eq_true,
      decide_eq_true_eq]
    exact ⟨hnow.ne', by norm_num⟩

/-! ### Claim C1 -/

/-- C1: on a landmark frame that is not under stand-up suppression and whose
sit angle is bad (nonzero and below 130), consecutiveBadPosture is
incremented; exactly when the incremented value reaches 3 and the 5-second
cooldown has elapsed, badPostureCount gains 1, lastDetectionTime becomes now,
consecutiveBadPosture resets to 0 and one BAD_POSTURE_SHORT cue is emitted;
otherwise badPostureCount and lastDetectionTime are unchanged and no cue is
emitted. Frame times are positive wall-clock values (`time.time()`). -/
theorem bad_posture_debounce (sit stdRaw now : ℚ) (st : State)
    (hnow : 0 < now)
    (hsup : suppression_active
        (stand_up_time_after_edge st (is_standing_frame (fold_std stdRaw)) now) now = false)
    (h0 : sit ≠ 0) (h130 : sit < POSTURE_THRESHOLD) :
    (MAX_COUNTER ≤ st.consecutiveBadPosture + 1 ∧
        DETECTION_COOLDOWN ≤ now - st.lastDetectionTime →
      (process_landmarks sit stdRaw now st).1.badPostureCount = st.badPostureCount + 1 ∧
      (process_landmarks sit stdRaw now st).1.lastDetectionTime = now ∧
      (process_landmarks sit stdRaw now st).1.consecutiveBadPosture = 0 ∧
      (process_landmarks sit stdRaw now st).2.count Event.sirenShortCue = 1) ∧
    (¬(MAX_COUNTER ≤ st.consecutiveBadPosture + 1 ∧
        DETECTION_COOLDOWN ≤ now - st.lastDetectionTime) →
      (process_landmarks sit stdRaw now st).1.badPostureCount = st.badPostureCount ∧
      (process_landmarks sit stdRaw now st).1.lastDetectionTime = st.lastDetectionTime ∧
      (process_landmarks sit stdRaw now st).1.consecutiveBadPosture
        = st.consecutiveBadPosture + 1 ∧
      (process_landmarks sit stdRaw now st).2.count Event.sirenShortCue = 0) := by
  have hedge := no_edge_of_not_suppressed st (is_standing_frame (fold_std stdRaw)) now hnow hsup
  have hsupb : suppression_active st.standUpTime now = false := by
    rwa [stand_up_time_after_edge, hedge, if_neg (by simp)] at hsup
  obtain ⟨hb, hc, hl, hs, hp, hg⟩ :=
    sitting_timer_update_fields (is_sitting_frame sit (fold_std stdRaw))
      (is_standing_frame (fold_std stdRaw)) now st
  have hsup2 : suppression_active
      (sitting_timer_update (is_sitting_frame sit (fold_std stdRaw))
        (is_standing_frame (fold_std stdRaw)) now st).standUpTime now = false := by
    rw [hs]; exact hsupb
  have key := process_landmarks_no_edge sit stdRaw now st hedge
  rw [posture_check_bad sit now _ _ hsup2 h0 h130, hb, hc, hl] at key
  constructor
  · intro h
    rw [if_pos h] at key
    rw [key]
    simp only [finish_frame_badCount, finish_frame_consecutive, finish_frame_lastDetection,
      finish_frame_count_siren]
    refine ⟨by simp, by simp, by simp, by simp [List.count_cons]⟩
  · intro h
    rw [if_neg h] at key
    rw [key]
    simp only [finish_frame_badCount, finish_frame_consecutive, finish_frame_lastDetection,
      finish_frame_count_siren]
    refine ⟨by simp, by simp, by simp, by simp [List.count_cons]⟩

/-- Witness for C1 at a concrete input: two prior consecutive bad frames, a
third bad frame at t = 6 with the cooldown elapsed fires the detection. -/
theorem bad_posture_debounce_witness :
    ((0:ℚ) < 6 ∧ (100:ℚ) ≠ 0 ∧ (100:ℚ) < POSTURE_THRESHOLD) ∧
    (process_landmarks 100 0 6 { initial_state with consecutiveBadPosture := 2 }).1.badPostureCount
      = 1 ∧
    (process_landmarks 100 0 6
        { initial_state with consecutiveBadPosture := 2 }).1.lastDetectionTime = 6 ∧
    (process_landmarks 100 0 6
        { initial_state with consecutiveBadPosture := 2 }).1.consecutiveBadPosture = 0 ∧
    (process_landmarks 100 0 6
        { initial_state with consecutiveBadPosture := 2 }).2.count Event.sirenShortCue = 1 := by
  have h := (bad_posture_debounce 100 0 6 { initial_state with consecutiveBadPosture := 2 }
      (by norm_num)
      (by norm_num [suppression_active, stand_up_time_after_edge, truthy, is_standing_frame,
        fold_std, STAND_THRESHOLD, initial_state])
      (by norm_num) (by norm_num [POSTURE_THRESHOLD])).1
      ⟨by norm_num [MAX_COUNTER, initial_state], by norm_num [DETECTION_COOLDOWN, initial_state]⟩
  exact ⟨⟨by norm_num, by norm_num, by norm_num [POSTURE_THRESHOLD]⟩,
    by simpa [initial_state] using h.1, by simpa using h.2.1,
    by simpa using h.2.2.1, by simpa using h.2.2.2⟩

/-! ### Claim C6 -/

/-- C6: a frame where isStanding holds and prevIsStanding does not (the
stand-up edge) sets standUpTime to now, resets badPostureCount to 0 and emits
exactly one STAND_UP cue; a frame where prevIsStanding already holds does none
of these (standUpTime and the cue untouched, badPostureCount at most
incremented by the debounce, never reset). Frame times are positive
wall-clock values. -/
theorem stand_up_edge_behaviour (sit stdRaw now : ℚ) (st : State) (hnow : 0 < now) :
    (is_standing_frame (fold_std stdRaw) = true ∧ st.prevIsStanding = false →
      (process_landmarks sit stdRaw now st).1.standUpTime = some now ∧
      (process_landmarks sit stdRaw now st).1.badPostureCount = 0 ∧
      (process_landmarks sit stdRaw now st).2.count Event.standUpCue = 1) ∧
    (st.prevIsStanding = true →
      (process_landmarks sit stdRaw now st).1.standUpTime = st.standUpTime ∧
      (process_landmarks sit stdRaw now st).2.count Event.standUpCue = 0 ∧
      ((process_landmarks sit stdRaw now st).1.badPostureCount = st.badPostureCount ∨
        (process_landmarks sit stdRaw now st).1.badPostureCount = st.badPostureCount + 1)) := by
  constructor
  · rintro ⟨hstand, hprev⟩
    have key := process_landmarks_edge sit stdRaw now st hstand hprev hnow
    rw [key]
    simp only [finish_frame_standUpTime, finish_frame_badCount, finish_frame_count_standUp]
    refine ⟨by simp, by simp, by simp [List.count_cons]⟩
  · intro hprev
    have hedge : (is_standing_frame (fold_std stdRaw) && !st.prevIsStanding) = false := by
      simp [hprev]
    have key := process_landmarks_no_edge sit stdRaw now st hedge
    rw [key]
    simp only [finish_frame_standUpTime, finish_frame_badCount, finish_frame_count_standUp]
    obtain ⟨t1, _, _, t4, _, _⟩ := sitting_timer_update_fields
      (is_sitting_frame sit (fold_std stdRaw)) (is_standing_frame (fold_std stdRaw)) now st
    obtain ⟨p1, _, _, _, _, pbc, pcnt⟩ := posture_check_fields sit now
      (is_standing_frame (fold_std stdRaw))
      (sitting_timer_update (is_sitting_frame sit (fold_std stdRaw))
        (is_standing_frame (fold_std stdRaw)) now st)
    refine ⟨by rw [p1, t4], pcnt, ?_⟩
    rcases pbc with h | h
    · exact Or.inl (by rw [h, t1])
    · exact Or.inr (by rw [h, t1])

/-- Witness for C6 at a concrete input: a standing frame (std = 175) with
prevIsStanding false fires the edge once. -/
theorem stand_up_edge_behaviour_witness :
    (is_standing_frame (fold_std 175) = true ∧ initial_state.prevIsStanding = false ∧
      (0:ℚ) < 5) ∧
    (process_landmarks 0 175 5 initial_state).1.standUpTime = some 5 ∧
    (process_landmarks 0 175 5 initial_state).1.badPostureCount = 0 ∧
    (process_landmarks 0 175 5 initial_state).2.count Event.standUpCue = 1 := by
  have h := (stand_up_edge_behaviour 0 175 5 initial_state (by norm_num)).1
      ⟨by norm_num [is_standing_frame, fold_std, STAND_THRESHOLD], rfl⟩
  exact ⟨⟨by norm_num [is_standing_frame, fold_std, STAND_THRESHOLD], rfl, by norm_num⟩,
    h.1, h.2.1, h.2.2⟩

/-! ### Claim C7 -/

/-- Counterexample to C7 as stated: a frame inside the suppression window
(standUpTime = 1 set, now = 5) which is also a stand-up edge resets
badPostureCount from 2 to 0, so badPostureCount is not always unchanged while
suppression applies. -/
theorem suppression_window_cex :
    window_state.standUpTime = some 1 ∧
    (5:ℚ) - 1 < 10 ∧
    window_state.badPostureCount = 2 ∧
    (process_landmarks 0 175 5 window_state).1.badPostureCount = 0 := by
  refine ⟨rfl, by norm_num, rfl, ?_⟩
  norm_num [process_landmarks, finish_frame, sitting_timer_update, stand_up_edge_update,
    posture_check, stretch_check, exceeded_check, manage_sound_loop, suppression_active,
    truthy, bad_angle_frame, is_standing_frame, is_sitting_frame, fold_std, initial_state,
    window_state, STAND_THRESHOLD, POSTURE_THRESHOLD, MAX_COUNTER, DETECTION_COOLDOWN,
    SIT_LIMIT_SEC]

/-- C7 amended: while standUpTime is set (to the positive wall-clock instant
of the last stand-up edge) and now - standUpTime < 10s, the bad-posture
evaluation is skipped — consecutiveBadPosture and lastDetectionTime are
unchanged, no BAD_POSTURE_SHORT cue is emitted, and the paused display is
emitted instead; badPostureCount is also unchanged unless the same frame is a
stand-up edge, which resets it to 0. At or after 10s, a non-edge frame is not
paused and is evaluated normally. -/
theorem suppression_window (sit stdRaw now t : ℚ) (st : State)
    (hnow : 0 < now) (hsut : st.standUpTime = some t) (ht : 0 < t) :
    (now - t < 10 →
      (process_landmarks sit stdRaw now st).1.consecutiveBadPosture
          = st.consecutiveBadPosture ∧
      (process_landmarks sit stdRaw now st).1.lastDetectionTime = st.lastDetectionTime ∧
      (process_landmarks sit stdRaw now st).2.count Event.sirenShortCue = 0 ∧
      Event.displayPaused ∈ (process_landmarks sit stdRaw now st).2 ∧
      (¬(is_standing_frame (fold_std stdRaw) = true ∧ st.prevIsStanding = false) →
        (process_landmarks sit stdRaw now st).1.badPostureCount = st.badPostureCount) ∧
      (is_standing_frame (fold_std stdRaw) = true ∧ st.prevIsStanding = false →
        (process_landmarks sit stdRaw now st).1.badPostureCount = 0)) ∧
    (10 ≤ now - t →
      ¬(is_standing_frame (fold_std stdRaw) = true ∧ st.prevIsStanding = false) →
      Event.displayPaused ∉ (process_landmarks sit stdRaw now st).2) := by
  constructor
  · intro hw
    by_cases hedge : is_standing_frame (fold_std stdRaw) = true ∧ st.prevIsStanding = false
    · have key := process_landmarks_edge sit stdRaw now st hedge.1 hedge.2 hnow
      rw [key]
      simp only [finish_frame_consecutive, finish_frame_lastDetection,
        finish_frame_count_siren, finish_frame_mem_paused, finish_frame_badCount]
      obtain ⟨_, t2, t3, _, _, _⟩ := sitting_timer_update_fields
        (is_sitting_frame sit (fold_std stdRaw)) (is_standing_frame (fold_std stdRaw)) now st
      refine ⟨by simpa using t2, by simpa using t3, by simp [List.count_cons], by simp,
        fun h => absurd hedge h, fun _ => by simp⟩
    · have hedgeb : (is_standing_frame (fold_std stdRaw) && !st.prevIsStanding) = false := by
        cases h1 : is_standing_frame (fold_std stdRaw) <;>
          cases h2 : st.prevIsStanding <;> simp_all
      have key := process_landmarks_no_edge sit stdRaw now st hedgeb
      obtain ⟨t1, t2, t3, t4, _, _⟩ := sitting_timer_update_fields
        (is_sitting_frame sit (fold_std stdRaw)) (is_standing_frame (fold_std stdRaw)) now st
      have hsupt : suppression_active
          (sitting_timer_update (is_sitting_frame sit (fold_std stdRaw))
            (is_standing_frame (fold_std stdRaw)) now st).standUpTime now = true := by
        rw [t4, hsut]
        simp only [suppression_active, truthy, Option.getD_some, Bool.and_eq_true,
          decide_eq_true_eq]
        exact ⟨ht.ne', hw⟩
      rw [posture_check_suppressed sit now _ _ hsupt] at key
      rw [key]
      simp only [finish_frame_consecutive, finish_frame_lastDetection,
        finish_frame_count_siren, finish_frame_mem_paused, finish_frame_badCount]
      refine ⟨by simpa using t2, by simpa using t3, by simp, by simp,
        fun _ => by simpa using t1, fun h => absurd h hedge⟩
  · intro h10 hedge
    have hedgeb : (is_standing_frame (fold_std stdRaw) && !st.prevIsStanding) = false := by
      cases h1 : is_standing_frame (fold_std stdRaw) <;>
        cases h2 : st.prevIsStanding <;> simp_all
    have key := process_landmarks_no_edge sit stdRaw now st hedgeb
    obtain ⟨_, _, _, t4, _, _⟩ := sitting_timer_update_fields
      (is_sitting_frame sit (fold_std stdRaw)) (is_standing_frame (fold_std stdRaw)) now st
    have hsupf : suppression_active
        (sitting_timer_update (is_sitting_frame sit (fold_std stdRaw))
          (is_standing_frame (fold_std stdRaw)) now st).standUpTime now = false := by
      rw [t4, hsut]
      unfold suppression_active
      simp only [Option.getD_some]
      rw [decide_eq_false (not_lt.mpr h10), Bool.and_false]
    rw [key]
    simp only [finish_frame_mem_paused]
    exact posture_check_no_paused sit now _ _ hsupf

/-- Witness for C7 at a concrete input: sitting again 4 seconds after a
stand-up edge (standUpTime = 1, now = 5) with a bad sit angle leaves all
debounce state untouched and shows the paused display. -/
theorem suppression_window_witness :
    ((0:ℚ) < 5 ∧ window_state_standing.standUpTime = some 1 ∧
      (0:ℚ) < 1 ∧ (5:ℚ) - 1 < 10) ∧
    (process_landmarks 100 0 5 window_state_standing).1.consecutiveBadPosture = 0 ∧
    (process_landmarks 100 0 5 window_state_standing).2.count Event.sirenShortCue = 0 ∧
    Event.displayPaused ∈ (process_landmarks 100 0 5 window_state_standing).2 ∧
    (process_landmarks 100 0 5 window_state_standing).1.badPostureCount = 2 := by
  have h := (suppression_window 100 0 5 1 window_state_standing
      (by norm_num) rfl (by norm_num)).1 (by norm_num)
  refine ⟨⟨by norm_num, rfl, by norm_num, by norm_num⟩,
    by simpa [window_state_standing, window_state, initial_state] using h.1,
    h.2.2.1, h.2.2.2.1, ?_⟩
  have hb := h.2.2.2.2.1
      (by rintro ⟨_, h2⟩
          simp [window_state_standing, window_state, initial_state] at h2)
  simpa [window_state_standing, window_state, initial_state] using hb

/-! ### Claim C8 -/

/-- C8: processing a frame with no pose snapshot sets sittingStartTime to null,
stretchPrompted to false, consecutiveBadPosture to 0, forces prevIsStanding to
false, stops the alert loop unconditionally, emits the no-detection display
event, and leaves badPostureCount unchanged. -/
theorem no_detection_resets (st : State) :
    (handle_no_detection st).1.sittingStartTime = none ∧
    (handle_no_detection st).1.stretchPrompted = false ∧
    (handle_no_detection st).1.consecutiveBadPosture = 0 ∧
    (handle_no_detection st).1.prevIsStanding = false ∧
    (handle_no_detection st).1.pingActive = false ∧
    (handle_no_detection st).1.badPostureCount = st.badPostureCount ∧
    (handle_no_detection st).2 = [Event.displayNoDetection] := by
  cases h : st.pingActive <;> simp [handle_no_detection, manage_sound_loop, h]

/-! ### Claim C10 -/

/-- C10: a no-detection frame leaves standUpTime and lastDetectionTime
unchanged, so the stand-up suppression window and the detection cooldown test
evaluate identically before and after it. -/
theorem no_detection_preserves_timers (st : State) (now : ℚ) :
    (handle_no_detection st).1.standUpTime = st.standUpTime ∧
    (handle_no_detection st).1.lastDetectionTime = st.lastDetectionTime ∧
    suppression_active (handle_no_detection st).1.standUpTime now
      = suppression_active st.standUpTime now ∧
    (DETECTION_COOLDOWN ≤ now - (handle_no_detection st).1.lastDetectionTime
      ↔ DETECTION_COOLDOWN ≤ now - st.lastDetectionTime) := by
  simp [handle_no_detection]

/-! ### Claim C4 -/

/-- Counterexample to C4 as stated: a standing frame (std = 175, already
standing, suppression window over) whose sit angle is nonzero and below 130
increments consecutiveBadPosture from 0 to 1 — the line-191 guard tests only
the sit angle, not isStanding. -/
theorem consecutive_reset_cex :
    is_standing_frame (fold_std 175) = true ∧
    suppression_active (stand_up_time_after_edge standing_state
        (is_standing_frame (fold_std 175)) 20) 20 = false ∧
    standing_state.consecutiveBadPosture = 0 ∧
    (process_landmarks 100 175 20 standing_state).1.consecutiveBadPosture = 1 := by
  refine ⟨by norm_num [is_standing_frame, fold_std, STAND_THRESHOLD], ?_, rfl, ?_⟩
  · norm_num [suppression_active, stand_up_time_after_edge, truthy, is_standing_frame,
      fold_std, STAND_THRESHOLD, standing_state, initial_state]
  · norm_num [process_landmarks, finish_frame, sitting_timer_update, stand_up_edge_update,
      posture_check, stretch_check, exceeded_check, manage_sound_loop, suppression_active,
      truthy, bad_angle_frame, is_standing_frame, is_sitting_frame, fold_std,
      standing_state, initial_state, STAND_THRESHOLD, POSTURE_THRESHOLD, MAX_COUNTER,
      DETECTION_COOLDOWN, SIT_LIMIT_SEC]

/-- C4 amended: on a landmark frame that is not under stand-up suppression,
consecutiveBadPosture is reset to 0 whenever the sit angle is not bad (zero or
at least 130) and whenever a debounced detection fires; a standing frame whose
sit angle is bad does increment the counter (see the counterexample). Frame
times are positive wall-clock values. -/
theorem consecutive_reset (sit stdRaw now : ℚ) (st : State)
    (hnow : 0 < now)
    (hsup : suppression_active (stand_up_time_after_edge st
        (is_standing_frame (fold_std stdRaw)) now) now = false) :
    (sit = 0 ∨ POSTURE_THRESHOLD ≤ sit →
      (process_landmarks sit stdRaw now st).1.consecutiveBadPosture = 0) ∧
    (sit ≠ 0 → sit < POSTURE_THRESHOLD → MAX_COUNTER ≤ st.consecutiveBadPosture + 1 →
      DETECTION_COOLDOWN ≤ now - st.lastDetectionTime →
      (process_landmarks sit stdRaw now st).1.consecutiveBadPosture = 0) := by
  have hedge := no_edge_of_not_suppressed st (is_standing_frame (fold_std stdRaw)) now hnow hsup
  have hsupb : suppression_active st.standUpTime now = false := by
    rwa [stand_up_time_after_edge, hedge, if_neg (by simp)] at hsup
  obtain ⟨hb, hc, hl, hs, hp, hg⟩ := sitting_timer_update_fields
    (is_sitting_frame sit (fold_std stdRaw)) (is_standing_frame (fold_std stdRaw)) now st
  have hsup2 : suppression_active (sitting_timer_update (is_sitting_frame sit (fold_std stdRaw))
      (is_standing_frame (fold_std stdRaw)) now st).standUpTime now = false := by
    rw [hs]; exact hsupb
  have key := process_landmarks_no_edge sit stdRaw now st hedge
  constructor
  · intro hgood
    rw [posture_check_good sit now _ _ hsup2 hgood] at key
    rw [key]
    simp only [finish_frame_consecutive]
  · intro h0 h130 hcnt hcool
    rw [posture_check_bad sit now _ _ hsup2 h0 h130, hc, hl] at key
    rw [if_pos ⟨hcnt, hcool⟩] at key
    rw [key]
    simp only [finish_frame_consecutive]

/-- Witness for C4 at a concrete input: a good-angle frame (sit = 150) resets
the consecutive counter from 2 to 0. -/
theorem consecutive_reset_witness :
    ((0:ℚ) < 5 ∧ POSTURE_THRESHOLD ≤ 150) ∧
    (process_landmarks 150 0 5
        { initial_state with consecutiveBadPosture := 2 }).1.consecutiveBadPosture = 0 := by
  have h := (consecutive_reset 150 0 5 { initial_state with consecutiveBadPosture := 2 }
      (by norm_num)
      (by norm_num [suppression_active, stand_up_time_after_edge, truthy, is_standing_frame,
        fold_std, STAND_THRESHOLD, initial_state])).1
      (Or.inr (by norm_num [POSTURE_THRESHOLD]))
  exact ⟨⟨by norm_num, by norm_num [POSTURE_THRESHOLD]⟩, h⟩

/-! ### Claim C5 -/

/-- The stand-up edge block touches only standUpTime and badPostureCount. -/
theorem stand_up_edge_update_fields (b : Bool) (now : ℚ) (prev : Bool) (st : State) :
    (stand_up_edge_update b now prev st).1.sittingStartTime = st.sittingStartTime ∧
    (stand_up_edge_update b now prev st).1.consecutiveBadPosture = st.consecutiveBadPosture ∧
    (stand_up_edge_update b now prev st).1.lastDetectionTime = st.lastDetectionTime ∧
    (stand_up_edge_update b now prev st).1.stretchPrompted = st.stretchPrompted ∧
    (stand_up_edge_update b now prev st).1.pingActive = st.pingActive := by
  unfold stand_up_edge_update
  split_ifs <;> simp

/-- After a landmark frame, sittingStartTime is exactly what the sitting-timer
block computed; no later block changes it. -/
theorem process_landmarks_sst (sit stdRaw now : ℚ) (st : State) :
    (process_landmarks sit stdRaw now st).1.sittingStartTime
      = (sitting_timer_update (is_sitting_frame sit (fold_std stdRaw))
          (is_standing_frame (fold_std stdRaw)) now st).sittingStartTime := by
  unfold process_landmarks
  dsimp only
  rw [finish_frame_sittingStart]
  dsimp only
  rw [(posture_check_fields sit now _ _).2.1]
  rw [(stand_up_edge_update_fields _ _ _ _).1]

/-- Closed form of the sitting-timer block's effect on sittingStartTime
(main.py lines 176-179). -/
theorem sitting_timer_update_sst (a b : Bool) (now : ℚ) (st : State) :
    (sitting_timer_update a b now st).sittingStartTime
      = if b = true then none
        else if a = true ∧ st.sittingStartTime = none then some now
        else st.sittingStartTime := by
  unfold sitting_timer_update
  dsimp only
  split_ifs <;> simp_all

/-- A sitting frame is by definition not a standing frame. -/
theorem is_sitting_not_standing (sit std : ℚ) (h : is_sitting_frame sit std = true) :
    is_standing_frame std = false := by
  simp only [is_sitting_frame, Bool.and_eq_true, Bool.not_eq_true'] at h
  exact h.2

/-- Counterexample to C5 as stated: a landmark frame with unknown sit angle
(sit = 0) and not standing is not a sitting frame, yet it leaves the
previously set sittingStartTime in place instead of clearing it. -/
theorem sitting_start_cex :
    is_sitting_frame 0 (fold_std 0) = false ∧
    sitting_state.sittingStartTime = some 50 ∧
    (process_landmarks 0 0 100 sitting_state).1.sittingStartTime = some 50 := by
  refine ⟨by norm_num [is_sitting_frame], rfl, ?_⟩
  rw [process_landmarks_sst, sitting_timer_update_sst]
  norm_num [is_sitting_frame, is_standing_frame, fold_std, STAND_THRESHOLD,
    sitting_state, initial_state]

/-- C5 amended: sittingStartTime is cleared by every standing frame and every
no-detection frame, set to now on a sitting frame when null, and kept on a
sitting frame when already set; but a landmark frame that is neither sitting
nor standing (unknown sit angle) leaves it unchanged rather than null, so it
can stay set across non-sitting frames. -/
theorem sitting_start_tracking (sit stdRaw now : ℚ) (st : State) :
    (is_standing_frame (fold_std stdRaw) = true →
      (process_landmarks sit stdRaw now st).1.sittingStartTime = none) ∧
    (is_sitting_frame sit (fold_std stdRaw) = true → st.sittingStartTime = none →
      (process_landmarks sit stdRaw now st).1.sittingStartTime = some now) ∧
    (is_sitting_frame sit (fold_std stdRaw) = true → st.sittingStartTime ≠ none →
      (process_landmarks sit stdRaw now st).1.sittingStartTime = st.sittingStartTime) ∧
    (is_sitting_frame sit (fold_std stdRaw) = false →
      is_standing_frame (fold_std stdRaw) = false →
      (process_landmarks sit stdRaw now st).1.sittingStartTime = st.sittingStartTime) ∧
    (handle_no_detection st).1.sittingStartTime = none := by
  refine ⟨?_, ?_, ?_, ?_, by simp [handle_no_detection]⟩
  · intro hstand
    rw [process_landmarks_sst, sitting_timer_update_sst, if_pos hstand]
  · intro hsit hnone
    have hstand := is_sitting_not_standing sit (fold_std stdRaw) hsit
    rw [process_landmarks_sst, sitting_timer_update_sst,
      if_neg (by simp [hstand]), if_pos ⟨hsit, hnone⟩]
  · intro hsit hsome
    have hstand := is_sitting_not_standing sit (fold_std stdRaw) hsit
    rw [process_landmarks_sst, sitting_timer_update_sst,
      if_neg (by simp [hstand]), if_neg (fun hh => hsome hh.2)]
  · intro hsit hstand
    rw [process_landmarks_sst, sitting_timer_update_sst,
      if_neg (by simp [hstand]), if_neg (by simp [hsit])]

/-- Witness for C5 at a concrete input: a sitting frame with no running timer
starts it at now = 7. -/
theorem sitting_start_tracking_witness :
    (is_sitting_frame 100 (fold_std 0) = true ∧ initial_state.sittingStartTime = none) ∧
    (process_landmarks 100 0 7 initial_state).1.sittingStartTime = some 7 := by
  have h := (sitting_start_tracking 100 0 7 initial_state).2.1
      (by norm_num [is_sitting_frame, is_standing_frame, fold_std, STAND_THRESHOLD]) rfl
  exact ⟨⟨by norm_num [is_sitting_frame, is_standing_frame, fold_std, STAND_THRESHOLD], rfl⟩, h⟩

/-! ### Claim C2 -/

/-- Reconciliation always drives the loop flag to the requested value. -/
theorem manage_sound_loop_eq (a s : Bool) : manage_sound_loop a s = s := by
  cases a <;> cases s <;> rfl

/-- After the frame tail, the loop flag equals the frame's alert condition:
stretch-time (with Python truthiness on the sitting timestamp) or three
debounced detections. -/
theorem finish_frame_ping (a b : Bool) (sit std now : ℚ) (p : State × List Event) :
    (finish_frame a b sit std now p).1.pingActive
      = ((a && truthy p.1.sittingStartTime &&
            decide (SIT_LIMIT_SEC ≤ now - p.1.sittingStartTime.getD 0)) ||
          decide (MAX_COUNTER ≤ p.1.badPostureCount)) := by
  unfold finish_frame stretch_check exceeded_check
  dsimp only
  split_ifs <;> simp_all [manage_sound_loop_eq]

/-- Counterexample to C2 as stated: a no-detection frame with three detections
on record stops the loop unconditionally, so afterwards the claimed
biconditional fails — badPostureCount is still 3 but the alert is inactive. -/
theorem alert_iff_cex :
    ¬ ((handle_no_detection alert_state).1.pingActive = true ↔
        (MAX_COUNTER ≤ (handle_no_detection alert_state).1.badPostureCount ∨
          ∃ t, (handle_no_detection alert_state).1.sittingStartTime = some t ∧
            SIT_LIMIT_SEC ≤ 100 - t)) := by
  intro h
  have hbad := h.mpr (Or.inl (by norm_num [handle_no_detection, alert_state, initial_state,
    MAX_COUNTER]))
  simp [handle_no_detection, manage_sound_loop, alert_state, initial_state] at hbad

/-- C2 amended: after every landmark frame the loop flag is active iff
badPostureCount is at least 3 or the frame is a sitting frame whose (updated)
sitting timer shows at least 3600 seconds; after a no-detection frame the
loop is stopped unconditionally, even when badPostureCount is still at least
3. Wall-clock times are positive. -/
theorem alert_reconciliation (sit stdRaw now : ℚ) (st : State)
    (hnow : 0 < now)
    (hpos : ∀ u, st.sittingStartTime = some u → 0 < u) :
    ((process_landmarks sit stdRaw now st).1.pingActive = true ↔
      (MAX_COUNTER ≤ (process_landmarks sit stdRaw now st).1.badPostureCount ∨
        (is_sitting_frame sit (fold_std stdRaw) = true ∧
          ∃ t, (process_landmarks sit stdRaw now st).1.sittingStartTime = some t ∧
            SIT_LIMIT_SEC ≤ now - t))) ∧
    (handle_no_detection st).1.pingActive = false := by
  constructor
  · have hposX : ∀ u, (sitting_timer_update (is_sitting_frame sit (fold_std stdRaw))
        (is_standing_frame (fold_std stdRaw)) now st).sittingStartTime = some u → 0 < u := by
      intro u hu
      rw [sitting_timer_update_sst] at hu
      split_ifs at hu with h1 h2 <;>
        first
          | exact hpos u hu
          | simp_all
    have hsst := process_landmarks_sst sit stdRaw now st
    unfold process_landmarks at hsst ⊢
    dsimp only at hsst ⊢
    rw [finish_frame_ping, finish_frame_badCount]
    rw [hsst]
    rw [(posture_check_fields sit now _ _).2.1, (stand_up_edge_update_fields _ _ _ _).1]
    cases hX : (sitting_timer_update (is_sitting_frame sit (fold_std stdRaw))
        (is_standing_frame (fold_std stdRaw)) now st).sittingStartTime with
    | none => simp [truthy]
    | some u =>
      have hu : 0 < u := hposX u hX
      simp only [truthy, Option.getD_some, Bool.or_eq_true, Bool.and_eq_true,
        decide_eq_true_eq, Option.some.injEq]
      constructor
      · rintro (⟨⟨hsit, _⟩, hdur⟩ | hcount)
        · exact Or.inr ⟨hsit, u, rfl, hdur⟩
        · exact Or.inl hcount
      · rintro (hcount | ⟨hsit, t, rfl, hdur⟩)
        · exact Or.inr hcount
        · exact Or.inl ⟨⟨hsit, hu.ne'⟩, hdur⟩
  · cases hpa : st.pingActive <;> simp [handle_no_detection, manage_sound_loop, hpa]

/-- Witness for C2 at a concrete input: a frame with three detections on
record keeps the loop active. -/
theorem alert_reconciliation_witness :
    ((0:ℚ) < 5 ∧ alert3_state.sittingStartTime = none) ∧
    (process_landmarks 0 0 5 alert3_state).1.pingActive = true := by
  have h := (alert_reconciliation 0 0 5 alert3_state (by norm_num)
      (by intro u hu; simp [alert3_state, initial_state] at hu)).1
  refine ⟨⟨by norm_num, rfl⟩, ?_⟩
  apply h.mpr
  refine Or.inl ?_
  rw [process_landmarks_no_edge 0 0 5 alert3_state
    (by norm_num [is_standing_frame, fold_std, STAND_THRESHOLD, alert3_state, initial_state])]
  rw [finish_frame_badCount]
  rw [posture_check_good 0 5 _ _ ?_ (Or.inl rfl)]
  · simp only [(sitting_timer_update_fields _ _ _ _).1]
    norm_num [alert3_state, initial_state, MAX_COUNTER]
  · rw [(sitting_timer_update_fields _ _ _ _).2.2.2.1]
    norm_num [suppression_active, truthy, alert3_state, initial_state]

/-! ### Claim C9 -/

/-- Counterexample to C9 as stated: with the left side at combined visibility
exactly 2v (not strictly above) and the right shoulder strictly nearer in
depth, the claimed precedence (rule 1 requires visibility to exceed 2v, so it
does not apply; rule 2 then picks the nearer right shoulder) would answer
right, but choose_side tests `>= v*2` and answers left. -/
theorem choose_side_cex :
    ¬(left_shoulder_lm.visibility + left_hip_lm.visibility > VIS_THRESH * 2) ∧
    ¬(right_shoulder_lm.visibility + right_hip_lm.visibility > VIS_THRESH * 2) ∧
    right_shoulder_lm.z < left_shoulder_lm.z ∧
    choose_side nose_lm left_shoulder_lm right_shoulder_lm left_hip_lm right_hip_lm VIS_THRESH
      = Side.left := by
  refine ⟨by norm_num [left_shoulder_lm, left_hip_lm, VIS_THRESH],
    by norm_num [right_shoulder_lm, right_hip_lm, VIS_THRESH],
    by norm_num [left_shoulder_lm, right_shoulder_lm], ?_⟩
  norm_num [choose_side, nose_lm, left_shoulder_lm, right_shoulder_lm, left_hip_lm,
    right_hip_lm, VIS_THRESH]

/-- C9 amended: choose_side picks a side by this precedence — a side whose
combined shoulder+hip visibility is at least 2v (not strictly above) and
strictly exceeds the other side's is picked (left tested first); otherwise the
side whose shoulder has strictly smaller z; otherwise the side whose shoulder
is planar-closer to the nose, right on ties — and it always returns one of
the two sides. -/
theorem choose_side_rules (nose Ls Rs Lh Rh : Landmark) (v : ℚ) :
    (Ls.visibility + Lh.visibility ≥ v * 2 ∧
        Ls.visibility + Lh.visibility > Rs.visibility + Rh.visibility →
      choose_side nose Ls Rs Lh Rh v = Side.left) ∧
    (¬(Ls.visibility + Lh.visibility ≥ v * 2 ∧
        Ls.visibility + Lh.visibility > Rs.visibility + Rh.visibility) →
      Rs.visibility + Rh.visibility ≥ v * 2 ∧
        Rs.visibility + Rh.visibility > Ls.visibility + Lh.visibility →
      choose_side nose Ls Rs Lh Rh v = Side.right) ∧
    (¬(Ls.visibility + Lh.visibility ≥ v * 2 ∧
        Ls.visibility + Lh.visibility > Rs.visibility + Rh.visibility) →
      ¬(Rs.visibility + Rh.visibility ≥ v * 2 ∧
        Rs.visibility + Rh.visibility > Ls.visibility + Lh.visibility) →
      (Ls.z < Rs.z → choose_side nose Ls Rs Lh Rh v = Side.left) ∧
      (¬(Ls.z < Rs.z) → Rs.z < Ls.z → choose_side nose Ls Rs Lh Rh v = Side.right) ∧
      (¬(Ls.z < Rs.z) → ¬(Rs.z < Ls.z) →
        ((nose.x - Ls.x) ^ 2 + (nose.y - Ls.y) ^ 2
            < (nose.x - Rs.x) ^ 2 + (nose.y - Rs.y) ^ 2 →
          choose_side nose Ls Rs Lh Rh v = Side.left) ∧
        (¬((nose.x - Ls.x) ^ 2 + (nose.y - Ls.y) ^ 2
            < (nose.x - Rs.x) ^ 2 + (nose.y - Rs.y) ^ 2) →
          choose_side nose Ls Rs Lh Rh v = Side.right))) ∧
    (choose_side nose Ls Rs Lh Rh v = Side.left ∨
      choose_side nose Ls Rs Lh Rh v = Side.right) := by
  unfold choose_side
  dsimp only
  split_ifs <;> simp_all

/-- Witness for C9 at a concrete input: the left side fully visible, the
right side invisible, rule 1 picks left. -/
theorem choose_side_rules_witness :
    ((⟨0, 0, 0, 1⟩ : Landmark).visibility + (⟨0, 0, 0, 1⟩ : Landmark).visibility
        ≥ (1/2 : ℚ) * 2 ∧
      (⟨0, 0, 0, 1⟩ : Landmark).visibility + (⟨0, 0, 0, 1⟩ : Landmark).visibility
        > (⟨0, 0, 0, 0⟩ : Landmark).visibility + (⟨0, 0, 0, 0⟩ : Landmark).visibility) ∧
    choose_side nose_lm ⟨0, 0, 0, 1⟩ ⟨0, 0, 0, 0⟩ ⟨0, 0, 0, 1⟩ ⟨0, 0, 0, 0⟩ (1/2)
      = Side.left := by
  refine ⟨⟨by norm_num, by norm_num⟩, ?_⟩
  exact (choose_side_rules nose_lm ⟨0, 0, 0, 1⟩ ⟨0, 0, 0, 0⟩ ⟨0, 0, 0, 1⟩ ⟨0, 0, 0, 0⟩
    (1/2)).1 ⟨by norm_num, by norm_num⟩

/-! ### Claim C3 -/

theorem atan2_neg_one_neg_one : atan2 (-1) (-1) = Real.arctan 1 - Real.pi := by
  unfold atan2
  rw [if_neg (by norm_num), if_neg (by norm_num),
    if_pos (by norm_num : ((-1:ℝ) < 0 ∧ (-1:ℝ) < 0))]
  norm_num

theorem atan2_one_neg_one : atan2 1 (-1) = -Real.arctan 1 + Real.pi := by
  unfold atan2
  rw [if_neg (by norm_num), if_pos (by norm_num : ((-1:ℝ) < 0 ∧ (0:ℝ) ≤ 1))]
  rw [show (1:ℝ) / (-1) = -1 by norm_num, Real.arctan_neg]

/-- atan2 always lies in (-pi, pi]. -/
theorem atan2_mem (y x : ℝ) : -Real.pi < atan2 y x ∧ atan2 y x ≤ Real.pi := by
  have hpi := Real.pi_pos
  have hlt := Real.arctan_lt_pi_div_two (y / x)
  have hgt := Real.neg_pi_div_two_lt_arctan (y / x)
  unfold atan2
  split_ifs with h1 h2 h3 h4 h5
  · constructor <;> linarith
  · have hyx : y / x ≤ 0 := div_nonpos_iff.mpr (Or.inl ⟨h2.2, le_of_lt h2.1⟩)
    have hle : Real.arctan (y / x) ≤ 0 := by
      have := Real.arctan_strictMono.monotone hyx
      rwa [Real.arctan_zero] at this
    constructor <;> linarith
  · have hyx : 0 < y / x := div_pos_of_neg_of_neg h3.2 h3.1
    have hpos : 0 < Real.arctan (y / x) := by
      have := Real.arctan_strictMono hyx
      rwa [Real.arctan_zero] at this
    constructor <;> linarith
  · constructor <;> linarith
  · constructor <;> linarith
  · constructor <;> linarith

/-- Counterexample to C3 as stated: for a = (-1, 1), b = (0, 0), c = (-1, -1)
(two perpendicular rays pointing into the left half-plane) the raw
polar-angle difference is -270 degrees, which the line-59 fold does not touch
(it is below 180), so calculate_angle returns 270, outside [0, 180]. -/
theorem calculate_angle_cex :
    calculate_angle (-1, 1) (0, 0) (-1, -1) = 270 ∧
    ¬(calculate_angle (-1, 1) (0, 0) (-1, -1) ≤ 180) := by
  have hval : calculate_angle (-1, 1) (0, 0) (-1, -1) = 270 := by
    unfold calculate_angle degrees
    dsimp only
    rw [show ((-1:ℝ) - 0) = -1 by norm_num, show ((1:ℝ) - 0) = 1 by norm_num]
    rw [atan2_neg_one_neg_one, atan2_one_neg_one, Real.arctan_one]
    rw [show (Real.pi / 4 - Real.pi - (-(Real.pi / 4) + Real.pi)) * (180 / Real.pi)
          = -270 by
        field_simp
        ring]
    rw [if_pos (by norm_num)]
    norm_num
  exact ⟨hval, by rw [hval]; norm_num⟩

/-- C3 amended: calculate_angle always returns a value in [0, 360): the
normalization folds a difference in [180, 360) down to (0, 180], but a
difference below -180 (possible, since each polar angle ranges over
(-180, 180]) passes through the fold and its absolute value exceeds 180. -/
theorem calculate_angle_range (a b c : ℝ × ℝ) :
    0 ≤ calculate_angle a b c ∧ calculate_angle a b c < 360 := by
  obtain ⟨l1, u1⟩ := atan2_mem (c.2 - b.2) (c.1 - b.1)
  obtain ⟨l2, u2⟩ := atan2_mem (a.2 - b.2) (a.1 - b.1)
  have hpi := Real.pi_pos
  have hratio : (0:ℝ) < 180 / Real.pi := by positivity
  have h360 : 2 * Real.pi * (180 / Real.pi) = 360 := by
    field_simp
    ring
  unfold calculate_angle degrees
  dsimp only
  set d := atan2 (c.2 - b.2) (c.1 - b.1) - atan2 (a.2 - b.2) (a.1 - b.1) with hd
  have hub : d * (180 / Real.pi) < 360 := by
    have hdlt : d < 2 * Real.pi := by rw [hd]; linarith
    calc d * (180 / Real.pi) < 2 * Real.pi * (180 / Real.pi) :=
          mul_lt_mul_of_pos_right hdlt hratio
      _ = 360 := h360
  have hlb : -360 < d * (180 / Real.pi) := by
    have hdgt : -(2 * Real.pi) < d := by rw [hd]; linarith
    have := mul_lt_mul_of_pos_right hdgt hratio
    calc (-360 : ℝ) = -(2 * Real.pi) * (180 / Real.pi) := by
          rw [neg_mul, h360]
      _ < d * (180 / Real.pi) := this
  split_ifs with h
  · exact ⟨abs_nonneg _, abs_lt.mpr ⟨hlb, hub⟩⟩
  · push_neg at h
    rw [abs_of_nonneg (by linarith)]
    constructor <;> linarith

end PostureChecker
